import Mathlib

/-!
Verification of the gentropy-input-support orchestration layer.

This file gives a shallow embedding of the three source modules
(`batch_common.py`, `data_sources.py`, `submit.py`) and proves the
properties of the natural-language specification against it.

Modelling conventions:
  * Python `int` is `Int` (unbounded); Python `float` fields are `ℚ`
    with `int(·)` embedded as truncation toward zero.
  * A pandas table is a list of structured rows; the default integer
    index of a freshly read table makes `.loc[i]` select positional
    row `i` for labels in `[0, len)` and raise `KeyError` otherwise,
    embedded as an `Option`.
  * Raising is embedded as `Except` / `Option`; `subprocess.run` with
    `check=False` never raises, which the embedding makes explicit.
  * Persisted object storage is a function from path to optional
    contents; writes overwrite.
-/

namespace Gentropy

/-- Truncation of a rational toward zero, the embedding of the Python
built-in `int(...)` applied to a float value. -/
def pyInt (q : ℚ) : Int := q.num.tdiv q.den

/-- Resource and identity parameters of `DataSourceBase`
(`batch_common.py`, lines 15-32).  The class-level GCP fields are
modelled as plain constants below since they are shared literals. -/
structure DataSourceBase where
  max_parallelism : Int := 50
  cpu_per_task : Int := 4
  mem_per_task_gb : ℚ := 4

/-- GCP staging path constant (`batch_common.py` line 24). -/
def gcp_staging_path : String := "gs://gentropy-tmp/batch/staging"

/-- GCP output path constant (`batch_common.py` line 25). -/
def gcp_output_path : String := "gs://gentropy-tmp/batch/output"

/-- GCP project constant (`batch_common.py` line 20). -/
def gcp_project : String := "open-targets-genetics-dev"

/-- GCP region constant (`batch_common.py` line 21). -/
def gcp_region : String := "europe-west1"

/-- Location of the persisted study index table for a data source
(`DataSourceBase._get_study_index_location`). -/
def get_study_index_location (data_source_name : String) : String :=
  gcp_output_path ++ "/" ++ data_source_name ++ "/study_index.tsv"

/-- Location of the summary-stats output for a data source
(`DataSourceBase._get_summary_stats_location`). -/
def get_summary_stats_location (data_source_name : String) : String :=
  gcp_output_path ++ "/" ++ data_source_name ++ "/summary_stats.parquet"

/-- Row count of a persisted study index
(`DataSourceBase._get_number_of_tasks`, line 113-114: the length
of the table read back from storage). -/
def get_number_of_tasks {α : Type} (study_index : List α) : Int :=
  (study_index.length : Int)

/-- One runnable of the Batch task spec: the script text. -/
structure Runnable where
  text : String

/-- The `computeResource` block of the task spec. -/
structure ComputeResource where
  cpuMilli : Int
  memoryMib : Int

/-- One GCS volume of the task spec. -/
structure Volume where
  gcsRemotePath : String
  mountPath : String

/-- The `taskSpec` block of the job config. -/
structure TaskSpec where
  runnables : List Runnable
  computeResource : ComputeResource
  volumes : List Volume
  maxRetryCount : Int
  maxRunDuration : String

/-- One task group of the job config. -/
structure TaskGroup where
  taskSpec : TaskSpec
  taskCount : Int
  parallelism : Int

/-- One instance policy of the allocation policy. -/
structure InstancePolicy where
  machineType : String
  provisioningModel : String

/-- The `allocationPolicy` block of the job config. -/
structure AllocationPolicy where
  instances : List InstancePolicy

/-- The `logsPolicy` block of the job config. -/
structure LogsPolicy where
  destination : String

/-- The structured Google Batch job configuration document built by
`DataSourceBase._generate_job_config`. -/
structure JobConfig where
  taskGroups : List TaskGroup
  allocationPolicy : AllocationPolicy
  logsPolicy : LogsPolicy

/-- The job configuration document built by
`DataSourceBase._generate_job_config` (`batch_common.py` lines 47-102),
as a function of the resource parameters, the job identity, the data
source name and the persisted study index read at generation time.
Mirrors the Python dict literal field by field; the function is total:
the source performs no validation of the task count. -/
def generate_job_config {α : Type} (ds : DataSourceBase)
    (data_source_name : String) (job_id : String)
    (study_index : List α) : JobConfig :=
  let number_of_tasks := get_number_of_tasks study_index
  { taskGroups := [
      { taskSpec := {
          runnables := [
            { text := "bash /mnt/share/code/runner.sh " ++ job_id ++ " "
                ++ data_source_name } ],
          computeResource := {
            cpuMilli := ds.cpu_per_task * 1000,
            memoryMib :=
              pyInt ((ds.cpu_per_task : ℚ) * ds.mem_per_task_gb * 1024) },
          volumes := [
            { gcsRemotePath := "gentropy-tmp/batch/staging",
              mountPath := "/mnt/share" } ],
          maxRetryCount := 1,
          maxRunDuration := "3600s" },
        taskCount := number_of_tasks,
        parallelism := min number_of_tasks ds.max_parallelism } ],
    allocationPolicy := {
      instances := [
        { machineType := "n2d-highmem-" ++ toString ds.cpu_per_task,
          provisioningModel := "SPOT" } ] },
    logsPolicy := { destination := "CLOUD_LOGGING" } }

/-- Selection of a row by integer label on a freshly read pandas table
with the default `RangeIndex` (the embedding of `table.loc[label]`):
labels `0 .. len-1` select the corresponding positional row, any other
label raises `KeyError`, embedded as `none`. -/
def pdLoc {α : Type} (rows : List α) (label : Int) : Option α :=
  if h : 0 ≤ label ∧ label < (rows.length : Int) then
    some (rows.get ⟨label.toNat, by omega⟩)
  else none

/-- The argument record handed to the external transformation worker
`SparkPrep` by `ingest_single_summary_stats`. -/
structure WorkerParams where
  source_stream_type : String
  number_of_cores : Int
  input_uri : String
  separator : String
  chromosome_column_name : String
  drop_columns : List String
  output_base_path : String

/-- One row of the eQTL Catalogue study index: the two columns the code
reads by name (`qtl_group`, `ftp_path`) plus the remaining columns of
the raw manifest, carried opaquely. -/
structure EqtlRow where
  qtl_group : String
  ftp_path : String
  rest : List String

/-- Name of the eQTL Catalogue data source (`data_sources.py` line 16). -/
def EqtlCatalogue.data_source_name : String := "eqtl_catalogue"

/-- The eQTL Catalogue manifest build
(`EqtlCatalogue.ingest_study_index`, `data_sources.py` lines 19-23):
the raw metadata table is saved with no modifications. -/
def EqtlCatalogue.ingest_study_index (raw : List EqtlRow) : List EqtlRow :=
  raw

/-- The per-row output base path of the eQTL Catalogue task resolver
(`data_sources.py` line 37): the summary-stats location followed by the
partition suffix `qtl_group=<qtl_group>`. -/
def EqtlCatalogue.output_base_path (record : EqtlRow) : String :=
  get_summary_stats_location EqtlCatalogue.data_source_name
    ++ "/qtl_group=" ++ record.qtl_group

/-- The eQTL Catalogue task resolver
(`EqtlCatalogue.ingest_single_summary_stats`, `data_sources.py`
lines 25-39): select row `task_index` of the persisted study index via
`.loc` and build the worker arguments; `none` models the `KeyError`
raised for an out-of-range label. -/
def EqtlCatalogue.ingest_single_summary_stats (ds : DataSourceBase)
    (study_index : List EqtlRow) (task_index : Int) : Option WorkerParams :=
  (pdLoc study_index task_index).map fun record =>
    { source_stream_type := "gz",
      number_of_cores := ds.cpu_per_task,
      input_uri := record.ftp_path,
      separator := "\t",
      chromosome_column_name := "chromosome",
      drop_columns := [],
      output_base_path := EqtlCatalogue.output_base_path record }

/-- One row of the UKB PPP raw manifest: the columns the code reads by
name plus the remaining columns carried opaquely. -/
structure UkbRow where
  ukbppp_ProteinID : String
  panel : String
  hgnc_symbol : String
  uniProt2 : String
  olinkID : String
  rest : List String

/-- One row of the persisted UKB PPP study index: the raw columns plus
the two derived columns appended by the manifest build. -/
structure UkbIndexRow where
  raw : UkbRow
  gentropy_study_id : String
  gentropy_summary_stats_link : String

/-- Name of the UKB PPP (European) data source (`data_sources.py`
line 46). -/
def UkbPppEur.data_source_name : String := "ukb_ppp_eur"

/-- Root of the UKB PPP summary-stats bucket (`data_sources.py`
line 48, field `summary_stats_prefix`). -/
def UkbPppEur.summary_stats_root : String :=
  "gs://gentropy-vault/ukb-ppp/UKB-PPP pGWAS summary statistics/European (discovery)"

/-- The protein identifier excluded by the explicit known-bad rule
(`data_sources.py` lines 78-81). -/
def UkbPppEur.bad_protein_id : String := "GLIPR1:P48060:OID31517:v1"

/-- Embedding of Python `str.replace(old, new)` for a one-character
pattern and a one-character replacement (the only shape used by the
source: `":" → "_"` and `"_" → "-"`): every occurrence is replaced. -/
def replace_char (s : String) (pat sub : Char) : String :=
  String.mk (s.data.map fun c => if c = pat then sub else c)

/-- Per-row derivation of (study id, summary-stats link)
(`UkbPppEur._process_study_index`, `data_sources.py` lines 50-73). -/
def UkbPppEur.process_study_index (row : UkbRow) : String × String :=
  let converted_id := replace_char row.ukbppp_ProteinID ':' '_'
  let summary_stats_filename := converted_id ++ "_" ++ row.panel ++ ".tar"
  let summary_stats_link :=
    UkbPppEur.summary_stats_root ++ "/" ++ summary_stats_filename
  let study_id := String.intercalate "_"
    ["UKB_PPP_EUR", row.hgnc_symbol, row.uniProt2, row.olinkID, "v1"]
  (study_id, summary_stats_link)

/-- The UKB PPP manifest build (`UkbPppEur.ingest_study_index`,
`data_sources.py` lines 75-88): drop the known-bad row, then append
the two derived columns row by row, preserving order. -/
def UkbPppEur.ingest_study_index (raw : List UkbRow) : List UkbIndexRow :=
  (raw.filter fun row => row.ukbppp_ProteinID ≠ UkbPppEur.bad_protein_id).map
    fun row =>
      { raw := row,
        gentropy_study_id := (UkbPppEur.process_study_index row).1,
        gentropy_summary_stats_link := (UkbPppEur.process_study_index row).2 }

/-- The per-row output base path of the UKB PPP task resolver
(`data_sources.py` line 101): the summary-stats location followed by
the partition suffix `studyId=<derived study id>`. -/
def UkbPppEur.output_base_path (record : UkbIndexRow) : String :=
  get_summary_stats_location UkbPppEur.data_source_name
    ++ "/studyId=" ++ record.gentropy_study_id

/-- The UKB PPP task resolver (`UkbPppEur.ingest_single_summary_stats`,
`data_sources.py` lines 90-103). -/
def UkbPppEur.ingest_single_summary_stats (ds : DataSourceBase)
    (study_index : List UkbIndexRow) (task_index : Int) :
    Option WorkerParams :=
  (pdLoc study_index task_index).map fun record =>
    { source_stream_type := "gz_tar",
      number_of_cores := ds.cpu_per_task,
      input_uri := record.gentropy_summary_stats_link,
      separator := " ",
      chromosome_column_name := "CHROM",
      drop_columns := [],
      output_base_path := UkbPppEur.output_base_path record }

deriving instance DecidableEq for Runnable
deriving instance DecidableEq for ComputeResource
deriving instance DecidableEq for Volume
deriving instance DecidableEq for TaskSpec
deriving instance DecidableEq for TaskGroup
deriving instance DecidableEq for InstancePolicy
deriving instance DecidableEq for AllocationPolicy
deriving instance DecidableEq for LogsPolicy
deriving instance DecidableEq for JobConfig
deriving instance DecidableEq for WorkerParams
deriving instance DecidableEq for EqtlRow
deriving instance DecidableEq for UkbRow
deriving instance DecidableEq for UkbIndexRow

/-- Sanitization of the data source name for use in a Batch job id
(`batch_common.py` line 136: underscores become hyphens). -/
def batch_safe_name (data_source_name : String) : String :=
  replace_char data_source_name '_' '-'

/-- Construction of the job identity
(`DataSourceBase.submit_summary_stats_ingestion`, `batch_common.py`
lines 133-137): the sanitized source name, a hyphen, and the UTC
timestamp formatted as `%Y%m%d-%H%M%S`. -/
def mk_job_id (data_source_name formatted_time : String) : String :=
  batch_safe_name data_source_name ++ "-" ++ formatted_time

/-- One observable side effect of the submission orchestrator. -/
inductive Effect where
  | runProcess (argv : List String)
  | createTempFile (path : String)
  | writeConfig (path : String) (config : JobConfig)
  | removeFile (path : String)

deriving instance DecidableEq for Effect

/-- Embedding of `subprocess.run(..., check=check)`: with `check=True`
a nonzero exit code raises `CalledProcessError`; with `check=False`
the call never raises, whatever the exit code. -/
def pyRun (exit_code : Int) (check : Bool) : Except String Unit :=
  if check = true ∧ exit_code ≠ 0 then
    Except.error "subprocess.CalledProcessError"
  else Except.ok ()

/-- The code-staging step (`DataSourceBase.deploy_code_to_storage`,
`batch_common.py` lines 116-129): one recursive `gsutil cp` call with
`check=False`, so the exit code of the copy is never inspected.  Returns the
effect trace and the raise/no-raise outcome as a function of the
exit code of the external call. -/
def deploy_code_to_storage (copy_exit_code : Int) :
    List Effect × Except String Unit :=
  ([Effect.runProcess
      ["gsutil", "-m", "-q", "cp", "-r", ".", gcp_staging_path ++ "/code"]],
   pyRun copy_exit_code false)

/-- The submission step (`DataSourceBase.submit_summary_stats_ingestion`,
`batch_common.py` lines 131-157): build the job id, create a named
temporary file, write the job config into it, invoke `gcloud batch jobs
submit` with `check=False`, then `os.remove` the temporary file.  Had
the submission call raised, control would leave the function before the
`os.remove` line, which the error branch makes explicit. -/
def submit_summary_stats_ingestion {α : Type} (ds : DataSourceBase)
    (data_source_name formatted_time tmp_path : String)
    (submit_exit_code : Int) (study_index : List α) :
    List Effect × Except String Unit :=
  let job_id := mk_job_id data_source_name formatted_time
  let config := generate_job_config ds data_source_name job_id study_index
  let argv := ["gcloud", "batch", "jobs", "submit", job_id,
               "--config=" ++ tmp_path, "--project=" ++ gcp_project,
               "--location=" ++ gcp_region]
  match pyRun submit_exit_code false with
  | Except.error e =>
      ([Effect.createTempFile tmp_path, Effect.writeConfig tmp_path config,
        Effect.runProcess argv], Except.error e)
  | Except.ok _ =>
      ([Effect.createTempFile tmp_path, Effect.writeConfig tmp_path config,
        Effect.runProcess argv, Effect.removeFile tmp_path], Except.ok ())

/-- Persisted object storage: a map from path to optional contents. -/
def Storage : Type := String → Option String

/-- Overwriting write of one object (`to_csv` to a storage path). -/
def Storage.write (s : Storage) (path contents : String) : Storage :=
  fun p => if p = path then some contents else s p

/-- One line of a tab-separated file: cells joined by tabs. -/
def tsv_line (cells : List String) : String :=
  String.intercalate "\t" cells

/-- Embedding of `DataFrame.to_csv(sep="\t", index=False)`: the header
line followed by one line per row, each terminated by a newline. -/
def to_csv (header : List String) (rows : List (List String)) : String :=
  String.join ((tsv_line header :: rows.map tsv_line).map
    fun line => line ++ "\n")

/-- The cell values of one eQTL Catalogue row, in a fixed column
order. -/
def EqtlRow.cells (r : EqtlRow) : List String :=
  r.qtl_group :: r.ftp_path :: r.rest

/-- The cell values of one raw UKB PPP row, in a fixed column order. -/
def UkbRow.cells (r : UkbRow) : List String :=
  r.ukbppp_ProteinID :: r.panel :: r.hgnc_symbol :: r.uniProt2
    :: r.olinkID :: r.rest

/-- The cell values of one persisted UKB PPP row: the raw columns
followed by the two derived columns. -/
def UkbIndexRow.cells (r : UkbIndexRow) : List String :=
  r.raw.cells ++ [r.gentropy_study_id, r.gentropy_summary_stats_link]

/-- The eQTL Catalogue manifest build as a storage transformer
(`EqtlCatalogue.ingest_study_index` including the `to_csv` write to
the canonical study-index location). -/
def EqtlCatalogue.run_ingest_study_index (store : Storage)
    (header : List String) (raw : List EqtlRow) : Storage :=
  Storage.write store (get_study_index_location EqtlCatalogue.data_source_name)
    (to_csv header ((EqtlCatalogue.ingest_study_index raw).map EqtlRow.cells))

/-- The UKB PPP manifest build as a storage transformer
(`UkbPppEur.ingest_study_index` including the `to_csv` write; the two
derived columns extend the header). -/
def UkbPppEur.run_ingest_study_index (store : Storage)
    (header : List String) (raw : List UkbRow) : Storage :=
  Storage.write store (get_study_index_location UkbPppEur.data_source_name)
    (to_csv (header ++ ["_gentropy_study_id", "_gentropy_summary_stats_link"])
      ((UkbPppEur.ingest_study_index raw).map UkbIndexRow.cells))

/-- The exact rational product whose truncation the generator stores
in `memoryMib` (`batch_common.py` lines 72-74:
`int(self.cpu_per_task * self.mem_per_task_gb * 1024)`). -/
def memory_product (ds : DataSourceBase) : ℚ :=
  (ds.cpu_per_task : ℚ) * ds.mem_per_task_gb * 1024

/-- A three-row sample UKB PPP raw manifest whose middle row carries
the known-bad protein identifier. -/
def ukb_sample_manifest : List UkbRow :=
  [UkbRow.mk "AARSD1:Q9BTE6:OID21311:v1" "Oncology" "AARSD1" "Q9BTE6" "OID21311" [],
   UkbRow.mk "GLIPR1:P48060:OID31517:v1" "Oncology" "GLIPR1" "P48060" "OID31517" [],
   UkbRow.mk "CLEC4D:Q8WXI8:OID20609:v1" "Inflammation" "CLEC4D" "Q8WXI8" "OID20609" []]

/-! ## Helper lemmas -/

/-- Appending a common suffix is cancellative on strings. -/
theorem string_append_cancel_right {a b t : String} (h : a ++ t = b ++ t) :
    a = b := by
  apply String.ext
  have hd : a.data ++ t.data = b.data ++ t.data := by
    rw [← String.data_append, ← String.data_append, h]
  exact List.append_cancel_right hd

/-- Appending a common non-trivial suffix after a common separator is
cancellative on strings. -/
theorem string_append_cancel_left {p a b : String} (h : p ++ a = p ++ b) :
    a = b := by
  apply String.ext
  have hd : p.data ++ a.data = p.data ++ b.data := by
    rw [← String.data_append, ← String.data_append, h]
  exact List.append_cancel_left hd

/-- Truncation toward zero agrees with the floor on nonnegative
rationals. -/
theorem pyInt_eq_floor {q : ℚ} (hq : 0 ≤ q) : pyInt q = ⌊q⌋ := by
  rw [pyInt, Rat.floor_def]
  exact Int.tdiv_eq_ediv (Rat.num_nonneg.mpr hq) (Int.ofNat_nonneg q.den)

/-- Writing the same contents to the same path twice equals writing
them once. -/
theorem Storage.write_write_same (s : Storage) (p c : String) :
    Storage.write (Storage.write s p c) p c = Storage.write s p c := by
  funext q
  by_cases h : q = p <;> simp [Storage.write, h]

/-- Filtering out the rows matching a predicate shortens a list by the
number of matching rows. -/
theorem filter_not_length_eq {α : Type} (p : α → Bool) (l : List α) :
    (l.filter fun a => !(p a)).length = l.length - l.countP p := by
  induction l with
  | nil => rfl
  | cons a l ih =>
    have hle := List.countP_le_length (p := p) (l := l)
    cases hpa : p a
    all_goals simp [List.filter_cons, List.countP_cons, hpa, ih]
    all_goals omega

/-! ## Claims -/

/-- C1: for every persisted StudyIndex and every resource policy with
`max_parallelism ≥ 1`, the task count of the generated job spec equals the
row count of the StudyIndex read at generation time, its parallelism
equals `min(task count, max_parallelism)`, and parallelism `≥ 1`
whenever the task count is `≥ 1`. -/
theorem C1_task_count_and_parallelism {α : Type} (ds : DataSourceBase)
    (name job_id : String) (study_index : List α)
    (hmax : 1 ≤ ds.max_parallelism)
    (hn : 1 ≤ (study_index.length : Int)) :
    ∃ g : TaskGroup,
      (generate_job_config ds name job_id study_index).taskGroups = [g] ∧
      g.taskCount = (study_index.length : Int) ∧
      g.parallelism = min (study_index.length : Int) ds.max_parallelism ∧
      1 ≤ g.parallelism := by
  refine ⟨_, rfl, rfl, rfl, ?_⟩
  show 1 ≤ min (study_index.length : Int) ds.max_parallelism
  exact le_min hn hmax

/-- Witness for C1: a one-row study index under the default resource
policy yields task count 1 and parallelism `min 1 50 = 1 ≥ 1`. -/
theorem C1_witness :
    1 ≤ ({} : DataSourceBase).max_parallelism ∧
    1 ≤ (([EqtlRow.mk "brain" "ftp://x" []] : List EqtlRow).length : Int) ∧
    ∃ g : TaskGroup,
      (generate_job_config {} EqtlCatalogue.data_source_name "job-1"
        [EqtlRow.mk "brain" "ftp://x" []]).taskGroups = [g] ∧
      g.taskCount = (([EqtlRow.mk "brain" "ftp://x" []] : List EqtlRow).length : Int) ∧
      g.parallelism = min (([EqtlRow.mk "brain" "ftp://x" []] : List EqtlRow).length : Int)
        ({} : DataSourceBase).max_parallelism ∧
      1 ≤ g.parallelism :=
  ⟨by decide, by decide,
    C1_task_count_and_parallelism {} EqtlCatalogue.data_source_name "job-1"
      [EqtlRow.mk "brain" "ftp://x" []] (by decide) (by decide)⟩

/-- C2 counterexample: on an empty study index the generator does not
abort with a configuration error; it succeeds and returns a document
whose single task group has `taskCount = 0` and `parallelism = 0`. -/
theorem C2_counterexample :
    ((generate_job_config {} EqtlCatalogue.data_source_name
        "eqtl-catalogue-20240101-000000" ([] : List EqtlRow)).taskGroups.map
      fun g => (g.taskCount, g.parallelism)) = [((0 : Int), (0 : Int))] := by
  decide

/-- C2 amended: the generator performs no validation of the task
count; for an empty StudyIndex it totally returns a job document with
`taskCount = 0` and `parallelism = 0` (for any nonnegative
`max_parallelism`), rather than raising a configuration error. -/
theorem C2_amended {α : Type} (ds : DataSourceBase) (name job_id : String)
    (hmax : 0 ≤ ds.max_parallelism) :
    ∃ g : TaskGroup,
      (generate_job_config ds name job_id ([] : List α)).taskGroups = [g] ∧
      g.taskCount = 0 ∧ g.parallelism = 0 := by
  refine ⟨_, rfl, rfl, ?_⟩
  show min ((List.length ([] : List α) : Int)) ds.max_parallelism = 0
  simpa using min_eq_left hmax

/-- Witness for C2 amended, at the default resource policy. -/
theorem C2_amended_witness :
    0 ≤ ({} : DataSourceBase).max_parallelism ∧
    ∃ g : TaskGroup,
      (generate_job_config {} EqtlCatalogue.data_source_name "job-0"
        ([] : List EqtlRow)).taskGroups = [g] ∧
      g.taskCount = 0 ∧ g.parallelism = 0 :=
  ⟨by decide,
    C2_amended {} EqtlCatalogue.data_source_name "job-0" (by decide)⟩

/-- C3: for a persisted StudyIndex with `n` rows and a task ordinal
`i`, each task resolver selects exactly row `i` when `0 ≤ i < n` and
fails (the `.loc` lookup raises `KeyError`, embedded as `none`) when
`i` is outside `[0, n)`; being a pure function of the persisted index
and the ordinal, it is independent of prior or later invocations. -/
theorem C3_task_resolver_selects_row (ds : DataSourceBase)
    (eqtl_index : List EqtlRow) (ukb_index : List UkbIndexRow) (i : Int) :
    (∀ (h0 : 0 ≤ i) (h1 : i < (eqtl_index.length : Int)),
      EqtlCatalogue.ingest_single_summary_stats ds eqtl_index i =
        some { source_stream_type := "gz",
               number_of_cores := ds.cpu_per_task,
               input_uri := (eqtl_index.get ⟨i.toNat, by omega⟩).ftp_path,
               separator := "\t",
               chromosome_column_name := "chromosome",
               drop_columns := [],
               output_base_path :=
                 EqtlCatalogue.output_base_path
                   (eqtl_index.get ⟨i.toNat, by omega⟩) }) ∧
    (¬ (0 ≤ i ∧ i < (eqtl_index.length : Int)) →
      EqtlCatalogue.ingest_single_summary_stats ds eqtl_index i = none) ∧
    (∀ (h0 : 0 ≤ i) (h1 : i < (ukb_index.length : Int)),
      UkbPppEur.ingest_single_summary_stats ds ukb_index i =
        some { source_stream_type := "gz_tar",
               number_of_cores := ds.cpu_per_task,
               input_uri :=
                 (ukb_index.get ⟨i.toNat, by omega⟩).gentropy_summary_stats_link,
               separator := " ",
               chromosome_column_name := "CHROM",
               drop_columns := [],
               output_base_path :=
                 UkbPppEur.output_base_path
                   (ukb_index.get ⟨i.toNat, by omega⟩) }) ∧
    (¬ (0 ≤ i ∧ i < (ukb_index.length : Int)) →
      UkbPppEur.ingest_single_summary_stats ds ukb_index i = none) := by
  refine ⟨fun h0 h1 => ?_, fun h => ?_, fun h0 h1 => ?_, fun h => ?_⟩
  · unfold EqtlCatalogue.ingest_single_summary_stats pdLoc
    rw [dif_pos ⟨h0, h1⟩]
    rfl
  · unfold EqtlCatalogue.ingest_single_summary_stats pdLoc
    rw [dif_neg h]
    rfl
  · unfold UkbPppEur.ingest_single_summary_stats pdLoc
    rw [dif_pos ⟨h0, h1⟩]
    rfl
  · unfold UkbPppEur.ingest_single_summary_stats pdLoc
    rw [dif_neg h]
    rfl

/-- Witness for C3: ordinal 1 on a two-row eQTL index selects the
second row; ordinal 1 on an empty UKB PPP index fails. -/
theorem C3_witness :
    (0 : Int) ≤ 1 ∧
    (1 : Int) < (([EqtlRow.mk "g1" "f1" [], EqtlRow.mk "g2" "f2" []] :
      List EqtlRow).length : Int) ∧
    ¬ ((0 : Int) ≤ 1 ∧ (1 : Int) < (([] : List UkbIndexRow).length : Int)) ∧
    EqtlCatalogue.ingest_single_summary_stats {}
        [EqtlRow.mk "g1" "f1" [], EqtlRow.mk "g2" "f2" []] 1 =
      some { source_stream_type := "gz",
             number_of_cores := 4,
             input_uri := "f2",
             separator := "\t",
             chromosome_column_name := "chromosome",
             drop_columns := [],
             output_base_path :=
               EqtlCatalogue.output_base_path (EqtlRow.mk "g2" "f2" []) } ∧
    UkbPppEur.ingest_single_summary_stats {} ([] : List UkbIndexRow) 1 = none := by
  refine ⟨by decide, by decide, by decide, ?_, ?_⟩
  · exact (C3_task_resolver_selects_row {}
      [EqtlRow.mk "g1" "f1" [], EqtlRow.mk "g2" "f2" []] [] 1).1
      (by decide) (by decide)
  · exact (C3_task_resolver_selects_row {}
      [EqtlRow.mk "g1" "f1" [], EqtlRow.mk "g2" "f2" []] [] 1).2.2.2
      (by decide)

/-- C4: for every data source descriptor and job identity, the
generated job document has exactly one task group whose task spec has
the templated entrypoint command, `cpuMilli = cpu_per_task * 1000`,
`memoryMib` derived from `cpu_per_task` and the memory ratio, exactly
one shared volume mounting the staged-code bucket, a retry ceiling of
1 and a max task duration of 3600 seconds, plus one allocation policy
choosing a memory-optimized (`n2d-highmem`) machine shape sized to
`cpu_per_task` with SPOT provisioning, and a Cloud Logging
destination. -/
theorem C4_job_document_shape {α : Type} (ds : DataSourceBase)
    (name job_id : String) (study_index : List α) :
    ∃ g : TaskGroup,
      (generate_job_config ds name job_id study_index).taskGroups = [g] ∧
      g.taskSpec.runnables =
        [Runnable.mk
          ("bash /mnt/share/code/runner.sh " ++ job_id ++ " " ++ name)] ∧
      g.taskSpec.computeResource.cpuMilli = ds.cpu_per_task * 1000 ∧
      g.taskSpec.computeResource.memoryMib =
        pyInt ((ds.cpu_per_task : ℚ) * ds.mem_per_task_gb * 1024) ∧
      g.taskSpec.volumes = [Volume.mk "gentropy-tmp/batch/staging" "/mnt/share"] ∧
      gcp_staging_path = "gs://" ++ "gentropy-tmp/batch/staging" ∧
      g.taskSpec.maxRetryCount = 1 ∧
      g.taskSpec.maxRunDuration = "3600s" ∧
      (generate_job_config ds name job_id study_index).allocationPolicy.instances =
        [InstancePolicy.mk ("n2d-highmem-" ++ toString ds.cpu_per_task) "SPOT"] ∧
      (generate_job_config ds name job_id study_index).logsPolicy.destination =
        "CLOUD_LOGGING" :=
  ⟨_, rfl, rfl, rfl, rfl, rfl, rfl, rfl, rfl, rfl, rfl⟩

/-- C5 counterexample: the sanitization of the source name is not
injective, so two submissions with distinct source names can collide
within the same second: `"a_b"` and `"a-b"` are distinct names whose
job identifiers agree at the same timestamp. -/
theorem C5_counterexample :
    ("a_b" : String) ≠ "a-b" ∧
    mk_job_id "a_b" "20240101-000000" = mk_job_id "a-b" "20240101-000000" :=
  ⟨by decide, by decide⟩

/-- C5 amended: two submissions within the same second produce
distinct job identifiers whenever the sanitized source names are
distinct (which holds for the two registered sources of the repository);
sanitization can identify names differing only in `_` versus `-`. -/
theorem C5_amended (n1 n2 t : String)
    (h : batch_safe_name n1 ≠ batch_safe_name n2) :
    mk_job_id n1 t ≠ mk_job_id n2 t := by
  intro he
  have he2 : batch_safe_name n1 ++ "-" ++ t = batch_safe_name n2 ++ "-" ++ t := he
  exact h (string_append_cancel_right (string_append_cancel_right he2))

/-- Witness for C5: the two registered data sources have distinct
sanitized names, hence distinct job identifiers at the same second. -/
theorem C5_witness :
    batch_safe_name EqtlCatalogue.data_source_name ≠
      batch_safe_name UkbPppEur.data_source_name ∧
    mk_job_id EqtlCatalogue.data_source_name "20240101-000000" ≠
      mk_job_id UkbPppEur.data_source_name "20240101-000000" :=
  ⟨by decide, C5_amended _ _ _ (by decide)⟩

/-- C6 counterexample: the manifest build does not make output path
suffixes unique; two distinct eQTL rows sharing a `qtl_group` survive
the build unchanged and resolve to the same output location. -/
theorem C6_counterexample :
    EqtlRow.mk "brain" "ftp://a" [] ≠ EqtlRow.mk "brain" "ftp://b" [] ∧
    EqtlCatalogue.ingest_study_index
        [EqtlRow.mk "brain" "ftp://a" [], EqtlRow.mk "brain" "ftp://b" []] =
      [EqtlRow.mk "brain" "ftp://a" [], EqtlRow.mk "brain" "ftp://b" []] ∧
    EqtlCatalogue.output_base_path (EqtlRow.mk "brain" "ftp://a" []) =
      EqtlCatalogue.output_base_path (EqtlRow.mk "brain" "ftp://b" []) :=
  ⟨by decide, rfl, rfl⟩

/-- C6 amended: two rows of a persisted index resolve to the same
output location exactly when their grouping key coincides (`qtl_group`
for the eQTL Catalogue, the derived study identifier for UKB PPP); the
build guarantees distinct output locations only for rows with distinct
keys, not unconditionally. -/
theorem C6_amended (r1 r2 : EqtlRow) (u1 u2 : UkbIndexRow) :
    (EqtlCatalogue.output_base_path r1 = EqtlCatalogue.output_base_path r2 ↔
      r1.qtl_group = r2.qtl_group) ∧
    (UkbPppEur.output_base_path u1 = UkbPppEur.output_base_path u2 ↔
      u1.gentropy_study_id = u2.gentropy_study_id) := by
  refine ⟨⟨fun h => ?_, fun h => ?_⟩, ⟨fun h => ?_, fun h => ?_⟩⟩
  · unfold EqtlCatalogue.output_base_path at h
    exact string_append_cancel_left h
  · unfold EqtlCatalogue.output_base_path
    rw [h]
  · unfold UkbPppEur.output_base_path at h
    exact string_append_cancel_left h
  · unfold UkbPppEur.output_base_path
    rw [h]

/-- C7: both external calls (`gsutil` staging copy and `gcloud`
submission) run with `check=False`, so neither raises whatever its
exit code; and the temporary job-config file is removed as the last
action of the submission call regardless of the submission exit
code. -/
theorem C7_fire_and_forget {α : Type} (ds : DataSourceBase)
    (name t tmp : String) (copy_exit submit_exit : Int)
    (study_index : List α) :
    (deploy_code_to_storage copy_exit).2 = Except.ok () ∧
    (submit_summary_stats_ingestion ds name t tmp submit_exit study_index).2 =
      Except.ok () ∧
    (submit_summary_stats_ingestion ds name t tmp submit_exit study_index).1.getLast?
      = some (Effect.removeFile tmp) ∧
    Effect.createTempFile tmp ∈
      (submit_summary_stats_ingestion ds name t tmp submit_exit study_index).1 := by
  refine ⟨rfl, rfl, rfl, ?_⟩
  show Effect.createTempFile tmp ∈ [Effect.createTempFile tmp,
    Effect.writeConfig tmp (generate_job_config ds name (mk_job_id name t) study_index),
    Effect.runProcess ["gcloud", "batch", "jobs", "submit", mk_job_id name t,
      "--config=" ++ tmp, "--project=" ++ gcp_project, "--location=" ++ gcp_region],
    Effect.removeFile tmp]
  exact List.mem_cons_self _ _

/-- C8: rebuilding the manifest from unchanged raw input is
idempotent: running the manifest build of either source twice over the same
raw manifest leaves storage exactly as one run does, and the persisted
bytes are a deterministic serialization of the cleaned, derived
table. -/
theorem C8_manifest_build_idempotent (store : Storage)
    (eqtl_header ukb_header : List String)
    (raw_eqtl : List EqtlRow) (raw_ukb : List UkbRow) :
    EqtlCatalogue.run_ingest_study_index
        (EqtlCatalogue.run_ingest_study_index store eqtl_header raw_eqtl)
        eqtl_header raw_eqtl =
      EqtlCatalogue.run_ingest_study_index store eqtl_header raw_eqtl ∧
    UkbPppEur.run_ingest_study_index
        (UkbPppEur.run_ingest_study_index store ukb_header raw_ukb)
        ukb_header raw_ukb =
      UkbPppEur.run_ingest_study_index store ukb_header raw_ukb ∧
    EqtlCatalogue.run_ingest_study_index store eqtl_header raw_eqtl
        (get_study_index_location EqtlCatalogue.data_source_name) =
      some (to_csv eqtl_header
        ((EqtlCatalogue.ingest_study_index raw_eqtl).map EqtlRow.cells)) ∧
    UkbPppEur.run_ingest_study_index store ukb_header raw_ukb
        (get_study_index_location UkbPppEur.data_source_name) =
      some (to_csv
        (ukb_header ++ ["_gentropy_study_id", "_gentropy_summary_stats_link"])
        ((UkbPppEur.ingest_study_index raw_ukb).map UkbIndexRow.cells)) := by
  refine ⟨Storage.write_write_same store _ _, Storage.write_write_same store _ _,
    ?_, ?_⟩
  · show Storage.write store _ _ _ = _
    simp [Storage.write]
  · show Storage.write store _ _ _ = _
    simp [Storage.write]

/-- C9: the UKB PPP manifest build excludes exactly the rows whose
protein identifier equals the explicit known-bad value; when the raw
manifest contains exactly one such row the persisted index has one row
fewer, and no persisted row (hence no derived output) carries the
excluded identifier. -/
theorem C9_known_bad_row_excluded (raw : List UkbRow)
    (h : (raw.countP fun r =>
      r.ukbppp_ProteinID = UkbPppEur.bad_protein_id) = 1) :
    (UkbPppEur.ingest_study_index raw).length = raw.length - 1 ∧
    ∀ row ∈ UkbPppEur.ingest_study_index raw,
      row.raw.ukbppp_ProteinID ≠ UkbPppEur.bad_protein_id := by
  constructor
  · unfold UkbPppEur.ingest_study_index
    rw [List.length_map]
    simp only [ne_eq, decide_not]
    rw [filter_not_length_eq
      (fun r => decide (r.ukbppp_ProteinID = UkbPppEur.bad_protein_id)) raw]
    rw [h]
  · intro row hrow
    unfold UkbPppEur.ingest_study_index at hrow
    simp only [List.mem_map, List.mem_filter] at hrow
    obtain ⟨a, ⟨_, ha⟩, rfl⟩ := hrow
    simpa using ha

/-- Witness for C9: the three-row sample manifest contains the bad
identifier exactly once; the persisted index has two rows and none of
them carries the excluded identifier. -/
theorem C9_witness :
    (ukb_sample_manifest.countP fun r =>
      r.ukbppp_ProteinID = UkbPppEur.bad_protein_id) = 1 ∧
    (UkbPppEur.ingest_study_index ukb_sample_manifest).length =
      ukb_sample_manifest.length - 1 ∧
    ∀ row ∈ UkbPppEur.ingest_study_index ukb_sample_manifest,
      row.raw.ukbppp_ProteinID ≠ UkbPppEur.bad_protein_id :=
  ⟨by decide, C9_known_bad_row_excluded ukb_sample_manifest (by decide)⟩

/-- C10 (implicit): `memoryMib` equals
`cpu_per_task * mem_per_task_gb * 1024` truncated toward zero — for a
nonnegative product this is the floor, so a fractional MiB is dropped,
never rounded up — and under the class defaults (`cpu_per_task = 4`,
`mem_per_task_gb = 4.0`) it equals 16384. -/
theorem C10_memory_mib {α : Type} (ds : DataSourceBase)
    (name job_id : String) (study_index : List α)
    (hpos : 0 ≤ memory_product ds) :
    ((generate_job_config ds name job_id study_index).taskGroups.map
        fun g => g.taskSpec.computeResource.memoryMib) =
      [pyInt (memory_product ds)] ∧
    pyInt (memory_product ds) = ⌊memory_product ds⌋ ∧
    (pyInt (memory_product ds) : ℚ) ≤ memory_product ds ∧
    memory_product ds < (pyInt (memory_product ds) : ℚ) + 1 ∧
    ((generate_job_config ({} : DataSourceBase) name job_id study_index).taskGroups.map
        fun g => g.taskSpec.computeResource.memoryMib) = [(16384 : Int)] := by
  refine ⟨rfl, pyInt_eq_floor hpos, ?_, ?_, ?_⟩
  · rw [pyInt_eq_floor hpos]
    exact_mod_cast Int.floor_le (memory_product ds)
  · rw [pyInt_eq_floor hpos]
    exact_mod_cast Int.lt_floor_add_one (memory_product ds)
  · show [pyInt (((4 : Int) : ℚ) * (4 : ℚ) * 1024)] = [(16384 : Int)]
    rw [show (((4 : Int) : ℚ) * (4 : ℚ) * 1024) = (16384 : ℚ) by norm_num]
    rw [pyInt_eq_floor (by norm_num : (0 : ℚ) ≤ 16384)]
    norm_num

/-- Witness for C10: with `cpu_per_task = 3` and
`mem_per_task_gb = 3/2048` the product is `9/2` MiB and the stored
value is its truncation `4`, not a rounded-up `5`. -/
theorem C10_witness :
    0 ≤ memory_product (DataSourceBase.mk 50 3 (3/2048)) ∧
    pyInt (memory_product (DataSourceBase.mk 50 3 (3/2048))) = 4 ∧
    (((generate_job_config (DataSourceBase.mk 50 3 (3/2048)) "src" "job-1"
        ([] : List EqtlRow)).taskGroups.map
        fun g => g.taskSpec.computeResource.memoryMib) =
      [pyInt (memory_product (DataSourceBase.mk 50 3 (3/2048)))] ∧
    pyInt (memory_product (DataSourceBase.mk 50 3 (3/2048))) =
      ⌊memory_product (DataSourceBase.mk 50 3 (3/2048))⌋ ∧
    (pyInt (memory_product (DataSourceBase.mk 50 3 (3/2048))) : ℚ) ≤
      memory_product (DataSourceBase.mk 50 3 (3/2048)) ∧
    memory_product (DataSourceBase.mk 50 3 (3/2048)) <
      (pyInt (memory_product (DataSourceBase.mk 50 3 (3/2048))) : ℚ) + 1 ∧
    ((generate_job_config ({} : DataSourceBase) "src" "job-1"
        ([] : List EqtlRow)).taskGroups.map
        fun g => g.taskSpec.computeResource.memoryMib) = [(16384 : Int)]) := by
  refine ⟨by norm_num [memory_product], ?_,
    C10_memory_mib (DataSourceBase.mk 50 3 (3/2048)) "src" "job-1"
      ([] : List EqtlRow) (by norm_num [memory_product])⟩
  rw [show memory_product (DataSourceBase.mk 50 3 (3/2048)) = (9 : ℚ)/2 by
    norm_num [memory_product]]
  rw [pyInt_eq_floor (by norm_num : (0 : ℚ) ≤ 9/2)]
  rw [Int.floor_eq_iff]
  norm_num

end Gentropy
